import Mathlib

/-!
Shallow embedding of the QZ Tray print-job lifecycle engine
(`qz_tray_print/models/qz_print_job.py` and
`qz_tray_print/models/qz_printer.py`).

ORM records become Lean structures; the mutating methods become pure
functions returning the updated record together with their Python return
value.  `ValidationError` raises become `Except.error`; the catch-all
`try/except` inside `process_job` is modelled by matching on the inner
`Except`.  Timestamps are abstract `Nat` ticks supplied by the caller
(the value of `fields.Datetime.now()` at that call).
-/

namespace QZ

/-- The `state` selection field of `qz.print.job`. -/
inductive JobState
  | draft
  | queued
  | printing
  | completed
  | failed
  | cancelled
deriving DecidableEq, Repr

/-- The `data_format` selection field of `qz.print.job`. -/
inductive DataFormat
  | pdf
  | html
  | escpos
  | zpl
deriving DecidableEq, Repr

/-- The `printer_type` selection field of `qz.printer`. -/
inductive PrinterType
  | receipt
  | label
  | document
  | other
deriving DecidableEq, Repr

/-- A `qz.printer` record (the fields the engine reads). -/
structure Printer where
  id : Nat
  name : String
  printer_type : PrinterType
  location_id : Option Nat
  department : Option String
  is_default : Bool
  priority : Int
  active : Bool
  supports_pdf : Bool
  supports_html : Bool
  supports_escpos : Bool
  supports_zpl : Bool
deriving DecidableEq, Repr

/-- A `qz.print.job` record (the fields the engine reads and writes).
`data` is the opaque binary payload as a byte list; `none` models a falsy
field.  `printer_id` is the raw foreign key; operations that dereference
it receive the joined `Printer` record as an argument. -/
structure Job where
  id : Nat
  name : String
  document_type : String
  printer_id : Option Nat
  user_id : Nat
  state : JobState
  data : Option (List Nat)
  data_format : DataFormat
  template_id : Option Nat
  template_data : Option String
  copies : Int
  priority : Int
  error_message : Option String
  retry_count : Int
  submitted_date : Option Nat
  completed_date : Option Nat
  parent_model : Option String
  parent_id : Option Nat
deriving DecidableEq, Repr

/-- The `ir.config_parameter` values read by `retry_job` and
`_notify_admin_failure` (`qz_tray.retry_enabled`, `qz_tray.retry_count`,
`qz_tray.retry_delay`, `qz_tray.email_notifications_enabled`). -/
structure Config where
  retry_enabled : Bool
  max_retries : Int
  retry_delay : Int
  email_enabled : Bool
deriving DecidableEq, Repr

/-- Substring containment on character lists (Python's `in` on `str`). -/
def containsSub : List Char → List Char → Bool
  | n, [] => n.isEmpty
  | n, c :: t => n.isPrefixOf (c :: t) || containsSub n t

/-- Python `str.lower()` on the character list of a string. -/
def lowerChars (s : String) : List Char :=
  s.toList.map Char.toLower

/-- Substring test `needle in haystack` on strings (case-sensitive). -/
def strContains (haystack needle : String) : Bool :=
  containsSub needle.toList haystack.toList

/-- The transient keyword list of `_is_transient_error`. -/
def transientKeywords : List String :=
  ["timeout", "connection", "network", "offline", "unavailable", "busy"]

/-- Embeds `QZPrintJob._is_transient_error`: the message is lowercased and tested
for each keyword with Python's `in`. -/
def is_transient_error (error_message : String) : Bool :=
  transientKeywords.any fun keyword => containsSub keyword.toList (lowerChars error_message)

/-- Odoo reads a falsy Text field as `False`; `self.error_message or ''`
becomes `getD "" `. -/
def msgOrEmpty (m : Option String) : String :=
  m.getD ""

/-- The expression `self.error_message + '\n' + extra` as written in `retry_job`. -/
def msgAppend (old : Option String) (extra : String) : String :=
  msgOrEmpty old ++ "\n" ++ extra

/-- The name of a `data_format` value as interpolated into error text. -/
def formatName : DataFormat → String
  | .pdf => "pdf"
  | .html => "html"
  | .escpos => "escpos"
  | .zpl => "zpl"

/-- The capability-flag check of `process_job` (the four
`supports_*` booleans against `data_format`). -/
def formatSupported (p : Printer) : DataFormat → Bool
  | .pdf => p.supports_pdf
  | .html => p.supports_html
  | .escpos => p.supports_escpos
  | .zpl => p.supports_zpl

/-- Embeds `QZPrintJob.submit_job`.  Raises `ValidationError` when neither data
nor template is set or no printer is assigned; otherwise queues the job,
flagging an offline printer in `error_message`.  Returns the updated
record (the Python method returns `self.id`). -/
def submit_job (j : Job) (p : Printer) (now : Nat) : Except String Job :=
  if j.data = none ∧ j.template_id = none then
    .error "Print job must have either data or a template"
  else if j.printer_id = none then
    .error "Print job must have a printer assigned"
  else if ¬ p.active then
    .ok { j with
      submitted_date := some now
      state := .queued
      error_message := some ("Printer " ++ p.name ++ " is offline. Job queued for later processing.") }
  else
    .ok { j with
      submitted_date := some now
      state := .queued }

/-- The body of `process_job`'s `try` block after the state write: the two
`raise ValidationError` sites, as a function of the printer and the job's
format.  `.error` carries the exception message. -/
def process_check (p : Printer) (fmt : DataFormat) : Except String Unit :=
  if ¬ p.active then
    .error ("Printer " ++ p.name ++ " is not active")
  else if ¬ formatSupported p fmt then
    .error ("Printer " ++ p.name ++ " does not support format " ++ formatName fmt)
  else
    .ok ()

/-- Embeds `QZPrintJob.process_job`.  The catch-all `except Exception` is the
`match` on `process_check`: a raised `ValidationError` never escapes; it
is classified transient/permanent and recorded on the job, and the method
returns `False`. -/
def process_job (j : Job) (p : Printer) (now : Nat) : Job × Bool :=
  if j.state ≠ .queued ∧ j.state ≠ .failed then
    (j, false)
  else
    let j1 := { j with state := JobState.printing }
    match process_check p j1.data_format with
    | .ok _ => (j1, true)
    | .error msg =>
      if is_transient_error msg then
        ({ j1 with state := .failed, error_message := some msg }, false)
      else
        ({ j1 with state := .failed, error_message := some msg, completed_date := some now }, false)

/-- Result of `retry_job`: the updated job, the returned boolean, and
whether `_notify_admin_failure` was invoked. -/
structure RetryResult where
  job : Job
  result : Bool
  notified : Bool
deriving DecidableEq, Repr

/-- Embeds `QZPrintJob.retry_job`.  Guard order as in the source: state check,
`retry_enabled`, max-retries (which appends "Maximum retry count
exceeded", stamps `completed_date` and notifies), transience of the
current `error_message`, then increment-and-reprocess.  The computed
exponential backoff value is unused by the source and not modelled. -/
def retry_job (j : Job) (p : Printer) (cfg : Config) (now : Nat) : RetryResult :=
  if j.state ≠ .failed then
    ⟨j, false, false⟩
  else if ¬ cfg.retry_enabled then
    ⟨j, false, false⟩
  else if j.retry_count ≥ cfg.max_retries then
    ⟨{ j with
        completed_date := some now
        error_message := some (msgAppend j.error_message "Maximum retry count exceeded") },
      false, true⟩
  else if ¬ is_transient_error (msgOrEmpty j.error_message) then
    ⟨{ j with completed_date := some now }, false, false⟩
  else
    let n := j.retry_count + 1
    let j2 := { j with
      state := JobState.queued
      retry_count := n
      error_message := some (msgAppend j.error_message
        ("Retry attempt " ++ toString n ++ " at " ++ toString now)) }
    let r := process_job j2 p now
    ⟨r.1, r.2, false⟩

/-- Embeds `QZPrintJob.mark_completed` (always returns `True`). -/
def mark_completed (j : Job) (now : Nat) : Job :=
  { j with
    state := .completed
    completed_date := some now
    error_message := none }

/-- Embeds `QZPrintJob.mark_failed`: records the failure, then retries when the
message is transient, else stamps `completed_date` and notifies. -/
def mark_failed (j : Job) (p : Printer) (cfg : Config) (error_message : String) (now : Nat) :
    Job × Bool :=
  let j1 := { j with state := JobState.failed, error_message := some error_message }
  if is_transient_error error_message then
    let r := retry_job j1 p cfg now
    (r.job, r.notified)
  else
    ({ j1 with completed_date := some now }, true)

/-- Embeds `QZPrintJob.cancel_job`. -/
def cancel_job (j : Job) (now : Nat) : Job × Bool :=
  if j.state = .completed ∨ j.state = .cancelled then
    (j, false)
  else
    ({ j with state := .cancelled, completed_date := some now }, true)

/-! ## Printer selection (`qz_printer.py`) -/

/-- The per-printer score computed in `QZPrinter._select_best_printer`
for a requested `location_id`/`department`.  A falsy request (`none`)
skips the match clause, so its `elif not printer.location_id` still
awards the unassigned fallback. -/
def printerScore (location_id : Option Nat) (department : Option String) (p : Printer) : Int :=
  (match location_id with
    | some l => if p.location_id = some l then 1000
                else if p.location_id = none then 100 else 0
    | none => if p.location_id = none then 100 else 0)
  + (match department with
    | some d => if p.department = some d then 500
                else if p.department = none then 50 else 0
    | none => if p.department = none then 50 else 0)
  + (if p.is_default then 10000 else 0)
  + p.priority

/-- Embeds `QZPrinter._select_best_printer`.  Python's stable descending sort on
the score puts the earliest of the maximal-score printers first; the fold
keeps the current best unless a strictly greater score appears, which
picks the same record. -/
def select_best_printer (printers : List Printer) (location_id : Option Nat)
    (department : Option String) : Option Printer :=
  match printers with
  | [] => none
  | p :: rest =>
    some (rest.foldl
      (fun best q =>
        if printerScore location_id department q > printerScore location_id department best
        then q else best)
      p)

/-- The search domain of `QZPrinter.get_default_printer`: active, type
match when requested, location match-or-unset when requested, department
match-or-unset when requested. -/
def inSelectionDomain (printer_type : Option PrinterType) (location_id : Option Nat)
    (department : Option String) (p : Printer) : Bool :=
  p.active
  && (match printer_type with
      | some t => p.printer_type = t
      | none => true)
  && (match location_id with
      | some l => p.location_id = some l || p.location_id = none
      | none => true)
  && (match department with
      | some d => p.department = some d || p.department = none
      | none => true)

/-- Embeds `QZPrinter.get_default_printer`: filter the registry by the domain
(the list stands for the `search` result in its returned order), return
`False` (`none`) on an empty pool, else delegate to
`_select_best_printer`. -/
def get_default_printer (registry : List Printer) (printer_type : Option PrinterType)
    (location_id : Option Nat) (department : Option String) : Option Printer :=
  let pool := registry.filter (inSelectionDomain printer_type location_id department)
  match pool with
  | [] => none
  | _ => select_best_printer pool location_id department

/-! ## Label batching (`QZPrintJob.batch_label_jobs`) -/

/-- One step of collecting `mapped('printer_id')`: append an unseen
printer id. -/
def mappedStep (acc : List Nat) (j : Job) : List Nat :=
  match j.printer_id with
  | none => acc
  | some pid => if pid ∈ acc then acc else acc ++ [pid]

/-- Embeds `label_jobs.mapped('printer_id')`: the distinct referenced printers
in order of first occurrence. -/
def mappedPrinters (jobs : List Job) : List Nat :=
  jobs.foldl mappedStep []

/-- The label-category test of `batch_label_jobs`. -/
def isLabelCategory (j : Job) : Bool :=
  j.document_type = "label" || j.document_type = "barcode" || j.document_type = "product_label"

/-- Stable insertion keeping earlier elements with keys `≤` the new key
in front: the sorted order of Python's stable `sorted(key=...)`. -/
def insertBySubmitted (j : Job) : List Job → List Job
  | [] => [j]
  | k :: t =>
    if k.submitted_date.getD 0 ≤ j.submitted_date.getD 0 then
      k :: insertBySubmitted j t
    else
      j :: k :: t

/-- Embeds `jobs.sorted(key=lambda j: j.submitted_date)` (stable ascending). -/
def sortBySubmitted (jobs : List Job) : List Job :=
  jobs.foldl (fun acc j => insertBySubmitted j acc) []

/-- The payload concatenation loop of `batch_label_jobs`: append each
job's data followed by the format separator (`\n` for ZPL, the paper-cut
sequence `1D 56 00` for ESC/POS). -/
def combineData (fmt : DataFormat) (jobs : List Job) : List Nat :=
  jobs.foldl
    (fun acc j =>
      match j.data with
      | none => acc
      | some d =>
        let withSep :=
          if fmt = .zpl then d ++ [10]
          else if fmt = .escpos then d ++ [29, 86, 0]
          else d
        acc ++ withSep)
    []

/-- Embeds `', '.join(names)`. -/
def joinComma : List String → String
  | [] => ""
  | [s] => s
  | s :: t => s ++ ", " ++ joinComma t

/-- Embeds `max(label_jobs.mapped('priority'))` over a non-empty list. -/
def maxPriority (first : Int) (rest : List Int) : Int :=
  rest.foldl max first

/-- Outcome of `batch_label_jobs`: a single input job is returned
unchanged; otherwise the new batch job plus the cancelled constituents. -/
inductive BatchOutcome
  | single (j : Job)
  | batched (batch : Job) (constituents : List Job)
deriving DecidableEq, Repr

/-- Embeds `QZPrintJob.batch_label_jobs`.  `printerName` resolves a printer id
to its `name` for the error text; `newId`/`newName` stand for the id and
sequence-generated name the ORM assigns to the created batch record
(a fresh record starts in the default state `draft`). -/
def batch_label_jobs (printerName : Nat → String) (jobs : List Job)
    (newId : Nat) (newName : String) (now : Nat) : Except String BatchOutcome :=
  match jobs with
  | [] => .error "No label jobs provided for batching"
  | [j] => .ok (.single j)
  | _ =>
    let printers := mappedPrinters jobs
    if printers.length > 1 then
      .error ("Cannot batch labels for different printers: "
        ++ joinComma (printers.map printerName))
    else
      match printers with
      | [] => .error "Cannot batch labels for different printers: "
      | printer :: _ =>
        match jobs.filter isLabelCategory with
        | [] => .error "No valid label jobs to batch"
        | j0 :: rest =>
          let labelJobs := j0 :: rest
          let batchFormat := j0.data_format
          let combined := combineData batchFormat (sortBySubmitted labelJobs)
          let batch : Job := {
            id := newId
            name := newName
            document_type := "label_batch"
            printer_id := some printer
            user_id := j0.user_id
            state := .draft
            data := some combined
            data_format := batchFormat
            template_id := none
            template_data := none
            copies := 1
            priority := maxPriority j0.priority (rest.map Job.priority)
            error_message := none
            retry_count := 0
            submitted_date := none
            completed_date := none
            parent_model := some "qz.print.job"
            parent_id := some j0.id }
          let cancelled := labelJobs.map fun j =>
            { j with
              state := JobState.cancelled
              error_message := some ("Combined into batch job " ++ newName)
              completed_date := some now }
          .ok (.batched batch cancelled)

/-! ## Name generation (`qz.print.job` create path) -/

/-- Embeds `QZPrintJob._get_default_name` followed by the `create` override: the
default name is `PrintJob-{sequence}` and `create` rewrites it to
`{doc_type}-{printer_name}-{sequence_part}` where `sequence_part` is
`name.split('-')[1]`, the sequence value itself.

Modelled from the spec: the `ir.sequence` record with code
`qz.print.job` is module data not present under `src/`; per the spec the
generator yields a fresh value per creation and "name generation must
not depend on the job's own primary key".  `seq` stands for the value
`next_by_code` returned for this creation (a hyphen-free, per-creation
distinct string such as `00042`). -/
def generatedJobName (doc_type printer_name seq : String) : String :=
  doc_type ++ "-" ++ printer_name ++ "-" ++ seq

/-- The `create` path of a job record: the stored name is
`generatedJobName` and the primary key `id` is assigned independently
afterwards. -/
def createJobRecord (id : Nat) (doc_type printer_name seq : String) (printer_id user_id : Nat)
    (fmt : DataFormat) (data : Option (List Nat)) : Job :=
  { id := id
    name := generatedJobName doc_type printer_name seq
    document_type := doc_type
    printer_id := some printer_id
    user_id := user_id
    state := .draft
    data := data
    data_format := fmt
    template_id := none
    template_data := none
    copies := 1
    priority := 5
    error_message := none
    retry_count := 0
    submitted_date := none
    completed_date := none
    parent_model := none
    parent_id := none }

/-- The creation-time checks on a `qz.printer` name: the
`_check_name_not_empty` constraint (strip and reject empties) and the
`name_unique` SQL constraint against the existing records. -/
def printer_name_check (existing : List Printer) (p : Printer) : Except String Printer :=
  if (p.name.toList.filter fun c => ¬ c = ' ').isEmpty then
    .error "Printer name cannot be empty"
  else if existing.any fun q => q.name = p.name then
    .error "Printer name must be unique!"
  else
    .ok p

/-! ## Repeated retries -/

/-- Call `retry_job` `n` times in a row on the evolving record (the
repeated-retry scenario of the spec), accumulating whether any call
invoked `_notify_admin_failure`. -/
def retryIter (p : Printer) (cfg : Config) (now : Nat) : Nat → Job → Job × Bool
  | 0, j => (j, false)
  | n + 1, j =>
    let r := retry_job j p cfg now
    let rest := retryIter p cfg now n r.job
    (rest.1, r.notified || rest.2)

/-! ## Helper lemmas -/

theorem toList_append (s t : String) : (s ++ t).toList = s.toList ++ t.toList :=
  String.data_append s t

theorem containsSub_self (n : List Char) : containsSub n n = true := by
  cases n with
  | nil => rfl
  | cons c t =>
    have : List.isPrefixOf (c :: t) (c :: t) = true := by
      rw [List.isPrefixOf_iff_prefix]
    simp [containsSub, this]

theorem containsSub_append_right (n l₁ l₂ : List Char) (h : containsSub n l₂ = true) :
    containsSub n (l₁ ++ l₂) = true := by
  induction l₁ with
  | nil => simpa using h
  | cons c t ih => simp [containsSub, ih]

theorem strContains_append_right (a b n : String) (h : strContains b n = true) :
    strContains (a ++ b) n = true := by
  unfold strContains at h ⊢
  rw [toList_append]
  exact containsSub_append_right _ _ _ h

theorem strContains_msgAppend (old : Option String) (extra : String) :
    strContains (msgAppend old extra) extra = true := by
  unfold msgAppend
  apply strContains_append_right
  unfold strContains
  exact containsSub_self _

/-! ## Sample records for witnesses and counterexamples -/

/-- An active receipt printer supporting pdf/html (the defaults). -/
def samplePrinter : Printer :=
  ⟨1, "Main Printer", .receipt, none, none, false, 10, true, true, true, false, false⟩

/-- An active printer that does not support ZPL
(the `Limited Printer` of the repository's own format test). -/
def limitedPrinter : Printer :=
  ⟨2, "Limited Printer", .receipt, none, none, false, 10, true, true, true, false, false⟩

/-- An inactive printer whose name matches no transient keyword. -/
def offlinePrinter : Printer :=
  ⟨3, "Back Office", .label, none, none, false, 10, false, true, true, false, true⟩

/-- An inactive printer whose name contains `network`, so the
`is not active` failure it produces classifies as transient. -/
def flakyPrinter : Printer :=
  ⟨4, "Network Label", .label, none, none, false, 10, false, true, true, false, true⟩

/-- The global retry configuration with the documented defaults. -/
def sampleConfig : Config := ⟨true, 3, 5, false⟩

/-- A queued pdf job on `samplePrinter`. -/
def sampleJob : Job :=
  ⟨7, "receipt-Main Printer-00001", "receipt", some 1, 1, .queued, some [1, 2], .pdf,
    none, none, 1, 5, none, 0, some 0, none, none, none⟩

/-- A queued ZPL job on `limitedPrinter`. -/
def zplJob : Job :=
  { sampleJob with id := 8, printer_id := some 2, data_format := DataFormat.zpl }

/-- A failed job with a transient error message and no retries yet. -/
def transientFailedJob : Job :=
  { sampleJob with
      id := 9
      printer_id := some 3
      state := JobState.failed
      error_message := some "Connection timeout"
      retry_count := 0 }

/-- A failed job with a permanent error message. -/
def permanentFailedJob : Job :=
  { sampleJob with
      id := 10
      state := JobState.failed
      error_message := some "Invalid data format"
      retry_count := 0 }

/-! ## Claims -/

/-- C10: `retry_job` on a job whose state is not `failed`, or while
`retry_enabled` is off, returns `False` and performs no write: the
returned record is the input record itself. -/
theorem C10_retry_noop (j : Job) (p : Printer) (cfg : Config) (now : Nat) :
    (j.state ≠ .failed → retry_job j p cfg now = ⟨j, false, false⟩) ∧
    (cfg.retry_enabled = false → retry_job j p cfg now = ⟨j, false, false⟩) := by
  constructor
  · intro h
    simp [retry_job, h]
  · intro h
    by_cases hs : j.state = JobState.failed <;> simp [retry_job, hs, h]

/-- Witness for C10 at a concrete queued job and a concrete disabled
configuration. -/
theorem C10_retry_noop_witness :
    retry_job sampleJob samplePrinter sampleConfig 4 = ⟨sampleJob, false, false⟩ ∧
    retry_job permanentFailedJob samplePrinter ⟨false, 3, 5, false⟩ 4 =
      ⟨permanentFailedJob, false, false⟩ :=
  ⟨(C10_retry_noop sampleJob samplePrinter sampleConfig 4).1 (by decide),
   (C10_retry_noop permanentFailedJob samplePrinter ⟨false, 3, 5, false⟩ 4).2 rfl⟩

/-- C9 (amended): `completed` and `cancelled` are terminal with respect
to `process_job`, `retry_job` and `cancel_job`, which leave the record
unchanged and return `False`; `submit_job`, `mark_completed` and
`mark_failed` perform no state check (see the counterexample). -/
theorem C9_terminal_amended (j : Job) (p : Printer) (cfg : Config) (now : Nat)
    (h : j.state = .completed ∨ j.state = .cancelled) :
    process_job j p now = (j, false) ∧
    retry_job j p cfg now = ⟨j, false, false⟩ ∧
    cancel_job j now = (j, false) := by
  rcases h with h | h <;>
    refine ⟨?_, ?_, ?_⟩ <;> simp [process_job, retry_job, cancel_job, h]

/-- Witness for C9 at a concrete completed job. -/
theorem C9_terminal_witness :
    process_job (mark_completed sampleJob 1) samplePrinter 2 = (mark_completed sampleJob 1, false) ∧
    retry_job (mark_completed sampleJob 1) samplePrinter sampleConfig 2 =
      ⟨mark_completed sampleJob 1, false, false⟩ ∧
    cancel_job (mark_completed sampleJob 1) 2 = (mark_completed sampleJob 1, false) :=
  C9_terminal_amended (mark_completed sampleJob 1) samplePrinter sampleConfig 2 (Or.inl rfl)

/-- C9 counterexample: `mark_completed` on a cancelled job moves it to
`completed`, and `submit_job` on a completed job moves it back to
`queued`, so not every engine operation respects the terminal states as
the claim requires. -/
theorem C9_terminal_counterexample :
    (mark_completed { sampleJob with state := JobState.cancelled } 9).state = .completed ∧
    submit_job (mark_completed sampleJob 1) samplePrinter 9 =
      .ok { mark_completed sampleJob 1 with submitted_date := some 9, state := JobState.queued } := by
  constructor
  · rfl
  · rfl

/-- C3 (amended): `cancel_job` on a `completed` or `cancelled` job is a
no-op returning `False`; on every other state — `draft`, `queued`,
`failed`, and also `printing` — it moves the job to `cancelled`, stamps
`completed_date` and returns `True`. -/
theorem C3_cancel_amended (j : Job) (now : Nat) :
    (j.state = .completed ∨ j.state = .cancelled → cancel_job j now = (j, false)) ∧
    (j.state ≠ .completed → j.state ≠ .cancelled →
      cancel_job j now = ({ j with state := .cancelled, completed_date := some now }, true)) := by
  constructor
  · intro h
    simp [cancel_job, h]
  · intro h1 h2
    simp [cancel_job, h1, h2]

/-- Witness for C3 at a concrete completed job and a concrete queued job. -/
theorem C3_cancel_witness :
    cancel_job (mark_completed sampleJob 1) 2 = (mark_completed sampleJob 1, false) ∧
    cancel_job sampleJob 2 =
      ({ sampleJob with state := .cancelled, completed_date := some 2 }, true) :=
  ⟨(C3_cancel_amended (mark_completed sampleJob 1) 2).1 (Or.inl rfl),
   (C3_cancel_amended sampleJob 2).2 (by decide) (by decide)⟩

/-- C3 counterexample: a job in the `printing` state IS cancelled by
`cancel_job` (the guard only excludes `completed` and `cancelled`),
contradicting the claim that cancel applies only to draft/queued/failed. -/
theorem C3_cancel_counterexample :
    (cancel_job { sampleJob with state := JobState.printing } 4).2 = true ∧
    (cancel_job { sampleJob with state := JobState.printing } 4).1.state = .cancelled := by
  decide

/-- C2: at the repository's own failing test input — a queued ZPL job on
an active printer without ZPL support — `process_job` does not let the
`ValidationError` reach the caller: the catch-all handler records the
message on the job, stamps `completed_date` (permanent classification)
and returns `False` with the job in `failed`. -/
theorem C2_process_swallows_error :
    process_check limitedPrinter zplJob.data_format =
      .error "Printer Limited Printer does not support format zpl" ∧
    process_job zplJob limitedPrinter 7 =
      ({ zplJob with
          state := JobState.failed,
          error_message := some "Printer Limited Printer does not support format zpl",
          completed_date := some 7 }, false) := by
  exact ⟨rfl, rfl⟩

/-- C7: `submit_job` raises `ValidationError` when neither data nor
template is set or no printer is assigned; with a valid job it queues,
recording an offline note (containing "offline") for an inactive
printer and stamping `submitted_date`; for an active printer it queues
with `submitted_date` set. -/
theorem C7_submit (j : Job) (p : Printer) (now : Nat) :
    (j.data = none → j.template_id = none →
      submit_job j p now = .error "Print job must have either data or a template") ∧
    (¬ (j.data = none ∧ j.template_id = none) → j.printer_id = none →
      submit_job j p now = .error "Print job must have a printer assigned") ∧
    (¬ (j.data = none ∧ j.template_id = none) → j.printer_id ≠ none → p.active = false →
      ∃ m, submit_job j p now =
          .ok { j with submitted_date := some now, state := .queued, error_message := some m } ∧
        strContains m "offline" = true) ∧
    (¬ (j.data = none ∧ j.template_id = none) → j.printer_id ≠ none → p.active = true →
      submit_job j p now = .ok { j with submitted_date := some now, state := .queued }) := by
  refine ⟨?_, ?_, ?_, ?_⟩
  · intro h1 h2
    simp [submit_job, h1, h2]
  · intro h1 h2
    simp only [submit_job, if_neg h1, if_pos h2]
  · intro h1 h2 h3
    refine ⟨"Printer " ++ p.name ++ " is offline. Job queued for later processing.", ?_, ?_⟩
    · simp [submit_job, h1, h2, h3]
    · exact strContains_append_right _ _ _ (by decide)
  · intro h1 h2 h3
    simp [submit_job, h1, h2, h3]

/-- Witness for C7: a valid job submitted to the inactive `offlinePrinter`
is queued with an offline note, and to the active `samplePrinter` is
queued with `submitted_date` set. -/
theorem C7_submit_witness :
    (∃ m, submit_job sampleJob offlinePrinter 3 =
        .ok { sampleJob with
                submitted_date := some 3
                state := .queued
                error_message := some m } ∧
      strContains m "offline" = true) ∧
    submit_job sampleJob samplePrinter 3 =
      .ok { sampleJob with submitted_date := some 3, state := .queued } :=
  ⟨(C7_submit sampleJob offlinePrinter 3).2.2.1 (by decide) (by decide) rfl,
   (C7_submit sampleJob samplePrinter 3).2.2.2 (by decide) (by decide) rfl⟩

/-- C4 counterexample: a failed job with the permanent error message
"Invalid data format" and `retry_count = 3 = max_retries` does return
`False` with `retry_count` unchanged and `completed_date` set, but the
max-retries branch runs before the permanent-error branch and appends
"Maximum retry count exceeded" to `error_message`, which the claim says
never happens for permanent errors. -/
theorem C4_retry_counterexample :
    is_transient_error (msgOrEmpty { permanentFailedJob with retry_count := 3 }.error_message)
        = false ∧
    (retry_job { permanentFailedJob with retry_count := 3 } samplePrinter sampleConfig 6).result
        = false ∧
    (retry_job { permanentFailedJob with retry_count := 3 } samplePrinter sampleConfig 6).job.retry_count
        = 3 ∧
    (retry_job { permanentFailedJob with retry_count := 3 } samplePrinter sampleConfig 6).job.error_message
        = some "Invalid data format\nMaximum retry count exceeded" ∧
    strContains "Invalid data format\nMaximum retry count exceeded" "Maximum retry count exceeded"
        = true := by
  decide

/-- C4 (amended): on a failed job with a permanent error, with retries
enabled and `retry_count < max_retries`, `retry_job` returns `False`,
leaves `retry_count` and `error_message` unchanged and stamps
`completed_date`; when `retry_count ≥ max_retries` the max-retries
branch runs first instead and does append "Maximum retry count
exceeded" (notifying the admin path). -/
theorem C4_retry_permanent_amended (j : Job) (p : Printer) (cfg : Config) (now : Nat)
    (hs : j.state = .failed) (he : cfg.retry_enabled = true)
    (hp : is_transient_error (msgOrEmpty j.error_message) = false) :
    (j.retry_count < cfg.max_retries →
      retry_job j p cfg now = ⟨{ j with completed_date := some now }, false, false⟩) ∧
    (j.retry_count ≥ cfg.max_retries →
      retry_job j p cfg now =
        ⟨{ j with
            completed_date := some now
            error_message := some (msgAppend j.error_message "Maximum retry count exceeded") },
          false, true⟩) := by
  constructor
  · intro h
    simp [retry_job, hs, he, not_le.mpr h, hp]
  · intro h
    simp [retry_job, hs, he, h]

/-- Witness for C4 at the concrete permanent-error job, below and at the
retry limit. -/
theorem C4_retry_permanent_witness :
    retry_job permanentFailedJob samplePrinter sampleConfig 6 =
      ⟨{ permanentFailedJob with completed_date := some 6 }, false, false⟩ ∧
    retry_job { permanentFailedJob with retry_count := 3 } samplePrinter sampleConfig 6 =
      ⟨{ permanentFailedJob with
          retry_count := 3
          completed_date := some 6
          error_message := some "Invalid data format\nMaximum retry count exceeded" },
        false, true⟩ := by
  constructor
  · exact (C4_retry_permanent_amended permanentFailedJob samplePrinter sampleConfig 6
      rfl rfl (by decide)).1 (by decide)
  · exact (C4_retry_permanent_amended { permanentFailedJob with retry_count := 3 }
      samplePrinter sampleConfig 6 rfl rfl (by decide)).2 (by decide)

/-- C1 counterexample: a failed job with a transient error
("Connection timeout") and `retry_count = 0 < max_retries = 3`, whose
printer is inactive with a permanently-classified name: `retry_job`
does increment `retry_count` to 1, but the immediate re-process fails
and the job ends in `failed`, not in `queued` or `printing` as the
claim states. -/
theorem C1_retry_counterexample :
    transientFailedJob.state = .failed ∧
    is_transient_error (msgOrEmpty transientFailedJob.error_message) = true ∧
    transientFailedJob.retry_count < sampleConfig.max_retries ∧
    (retry_job transientFailedJob offlinePrinter sampleConfig 5).job.retry_count = 1 ∧
    (retry_job transientFailedJob offlinePrinter sampleConfig 5).job.state ≠ JobState.queued ∧
    (retry_job transientFailedJob offlinePrinter sampleConfig 5).job.state ≠ JobState.printing := by
  decide

/-- One transient retry cycle in which the re-process attempt fails
again with the transient message `msg₀`: the job comes back `failed`
with `retry_count` incremented, `error_message` overwritten by `msg₀`,
and `completed_date` and `data_format` untouched. -/
theorem retry_step_cycle (j : Job) (p : Printer) (cfg : Config) (now : Nat) (msg₀ : String)
    (hs : j.state = .failed) (he : cfg.retry_enabled = true)
    (hcount : j.retry_count < cfg.max_retries)
    (htrans : is_transient_error (msgOrEmpty j.error_message) = true)
    (hcheck : process_check p j.data_format = .error msg₀)
    (htrans₀ : is_transient_error msg₀ = true) :
    retry_job j p cfg now =
      ⟨{ j with
          state := JobState.failed
          retry_count := j.retry_count + 1
          error_message := some msg₀ },
        false, false⟩ := by
  simp [retry_job, hs, he, not_le.mpr hcount, htrans, process_job, hcheck, htrans₀]

/-- One-step unfolding of `retryIter`. -/
theorem retryIter_succ (p : Printer) (cfg : Config) (now : Nat) (n : Nat) (j : Job) :
    retryIter p cfg now (n + 1) j =
      ((retryIter p cfg now n (retry_job j p cfg now).job).1,
        (retry_job j p cfg now).notified ||
          (retryIter p cfg now n (retry_job j p cfg now).job).2) := rfl

/-- Exhausting the retries: starting from a transient-failed job with
`retry_count = i` and `i + k = max_retries`, `k + 1` further `retry_job`
calls (each re-process failing with a transient message) end in the
max-retries terminal branch: still `failed`, `completed_date` stamped,
"Maximum retry count exceeded" appended, admin notified. -/
theorem retryIter_exhausts (p : Printer) (cfg : Config) (now : Nat) (msg₀ : String) (m : Nat)
    (he : cfg.retry_enabled = true) (hm : cfg.max_retries = (m : Int))
    (htrans₀ : is_transient_error msg₀ = true) :
    ∀ k i (j : Job), i + k = m → j.state = .failed →
      is_transient_error (msgOrEmpty j.error_message) = true →
      j.retry_count = (i : Int) →
      process_check p j.data_format = .error msg₀ →
      ∃ jf, retryIter p cfg now (k + 1) j = (jf, true) ∧
        jf.state = .failed ∧ jf.completed_date = some now ∧
        ∃ e, jf.error_message = some e ∧
          strContains e "Maximum retry count exceeded" = true := by
  intro k
  induction k with
  | zero =>
    intro i j hik hs ht hrc _hcheck
    have hge : j.retry_count ≥ cfg.max_retries := by
      rw [hrc, hm]
      exact_mod_cast Nat.le_of_eq (by omega)
    have hstep : retry_job j p cfg now =
        ⟨{ j with
            completed_date := some now
            error_message := some (msgAppend j.error_message "Maximum retry count exceeded") },
          false, true⟩ := by
      simp [retry_job, hs, he, hge]
    refine ⟨{ j with
        completed_date := some now
        error_message := some (msgAppend j.error_message "Maximum retry count exceeded") },
      ?_, hs, rfl, msgAppend j.error_message "Maximum retry count exceeded", rfl,
      strContains_msgAppend _ _⟩
    simp [retryIter, hstep]
  | succ k ih =>
    intro i j hik hs ht hrc hcheck
    have hcount : j.retry_count < cfg.max_retries := by
      rw [hrc, hm]
      exact_mod_cast (by omega : i < m)
    have hr := retry_step_cycle j p cfg now msg₀ hs he hcount ht hcheck htrans₀
    set j' : Job := { j with
        state := JobState.failed
        retry_count := j.retry_count + 1
        error_message := some msg₀ } with hj'
    have ht' : is_transient_error (msgOrEmpty j'.error_message) = true := htrans₀
    have hrc'' : j'.retry_count = ((i + 1 : Nat) : Int) := by
      show j.retry_count + 1 = _
      rw [hrc]
      push_cast
      ring
    obtain ⟨jf, hiter, hfs, hfd, e, hfe, hfc⟩ :=
      ih (i + 1) j' (by omega) rfl ht' hrc'' hcheck
    refine ⟨jf, ?_, hfs, hfd, e, hfe, hfc⟩
    show retryIter p cfg now (k + 1 + 1) j = (jf, true)
    rw [retryIter_succ, hr]
    simp [hiter]

/-- C1 (amended): on a failed job with a transient error,
`retry_count < max_retries` and retries enabled, `retry_job` increments
`retry_count` by exactly 1, requeues and immediately re-invokes
`process_job`, so the job ends `printing` when the process checks pass
and `failed` when they do not (not `queued`); and calling `retry_job`
exactly `max_retries + 1` times on a job whose re-process keeps failing
transiently ends in a terminal `failed` state with `completed_date`
set, "Maximum retry count exceeded" contained in `error_message`, and
`_notify_admin_failure` invoked. -/
theorem C1_retry_amended :
    (∀ (j : Job) (p : Printer) (cfg : Config) (now : Nat),
      j.state = .failed → cfg.retry_enabled = true →
      j.retry_count < cfg.max_retries →
      is_transient_error (msgOrEmpty j.error_message) = true →
      (retry_job j p cfg now).job.retry_count = j.retry_count + 1 ∧
      (process_check p j.data_format = .ok () →
        (retry_job j p cfg now).job.state = .printing ∧ (retry_job j p cfg now).result = true) ∧
      (∀ msg, process_check p j.data_format = .error msg →
        (retry_job j p cfg now).job.state = .failed ∧ (retry_job j p cfg now).result = false)) ∧
    (∀ (m : Nat) (j : Job) (p : Printer) (cfg : Config) (now : Nat) (msg₀ : String),
      j.state = .failed → cfg.retry_enabled = true → cfg.max_retries = (m : Int) →
      j.retry_count = 0 → is_transient_error (msgOrEmpty j.error_message) = true →
      process_check p j.data_format = .error msg₀ → is_transient_error msg₀ = true →
      ∃ jf, retryIter p cfg now (m + 1) j = (jf, true) ∧
        jf.state = .failed ∧ jf.completed_date = some now ∧
        ∃ e, jf.error_message = some e ∧
          strContains e "Maximum retry count exceeded" = true) := by
  constructor
  · intro j p cfg now hs he hcount htrans
    have hbase : retry_job j p cfg now =
        (let j2 := { j with
            state := JobState.queued
            retry_count := j.retry_count + 1
            error_message := some (msgAppend j.error_message
              ("Retry attempt " ++ toString (j.retry_count + 1) ++ " at " ++ toString now)) }
          let r := process_job j2 p now
          (⟨r.1, r.2, false⟩ : RetryResult)) := by
      simp [retry_job, hs, he, not_le.mpr hcount, htrans]
    refine ⟨?_, ?_, ?_⟩
    · rw [hbase]
      cases hcheck : process_check p j.data_format with
      | ok u => simp [process_job, hcheck]
      | error msg =>
        by_cases hmt : is_transient_error msg = true <;>
          simp [process_job, hcheck, hmt]
    · intro hcheck
      rw [hbase]
      constructor <;> simp [process_job, hcheck]
    · intro msg hcheck
      rw [hbase]
      by_cases hmt : is_transient_error msg = true <;>
        constructor <;> simp [process_job, hcheck, hmt]
  · intro m j p cfg now msg₀ hs he hm hrc htrans hcheck htrans₀
    exact retryIter_exhausts p cfg now msg₀ m he hm htrans₀ m 0 j (by omega) hs htrans
      (by rw [hrc]; rfl) hcheck

/-- Witness for C1: one retry of the concrete transient-failed job on
the inactive `offlinePrinter` increments the count and ends `failed`;
four retries (`max_retries + 1 = 4`) against the inactive
`flakyPrinter` (whose failure message is transient) end terminal with
the max-retries note and the admin notification. -/
theorem C1_retry_witness :
    ((retry_job transientFailedJob offlinePrinter sampleConfig 5).job.retry_count =
        transientFailedJob.retry_count + 1 ∧
      (retry_job transientFailedJob offlinePrinter sampleConfig 5).job.state = .failed) ∧
    ∃ jf, retryIter flakyPrinter sampleConfig 5 4 transientFailedJob = (jf, true) ∧
      jf.state = .failed ∧ jf.completed_date = some 5 ∧
      ∃ e, jf.error_message = some e ∧
        strContains e "Maximum retry count exceeded" = true := by
  constructor
  · have h := (C1_retry_amended.1 transientFailedJob offlinePrinter sampleConfig 5
      rfl rfl (by decide) (by decide))
    exact ⟨h.1, (h.2.2 "Printer Back Office is not active" rfl).1⟩
  · exact C1_retry_amended.2 3 transientFailedJob flakyPrinter sampleConfig 5
      "Printer Network Label is not active" rfl rfl rfl rfl (by decide) rfl (by decide)

/-- The `takeWhile` of a block that wholly satisfies the predicate skips past it. -/
theorem takeWhile_append_all (p : Char → Bool) (a b : List Char)
    (h : ∀ x ∈ a, p x = true) :
    (a ++ b).takeWhile p = a ++ b.takeWhile p := by
  induction a with
  | nil => simp
  | cons x t ih =>
    simp [List.takeWhile, h x (by simp), ih fun y hy => h y (by simp [hy])]

/-- The character list of a generated job name splits at the last
hyphen before the sequence part. -/
theorem generatedJobName_data (d p s : String) :
    (generatedJobName d p s).data = (d ++ "-" ++ p).data ++ '-' :: s.data := by
  simp [generatedJobName, String.data_append]

/-- Distinct hyphen-free sequence parts give distinct generated names,
whatever the document types and printer names are. -/
theorem generatedJobName_inj_seq (d1 p1 s1 d2 p2 s2 : String)
    (h1 : ∀ c ∈ s1.toList, c ≠ '-') (h2 : ∀ c ∈ s2.toList, c ≠ '-')
    (hne : s1 ≠ s2) :
    generatedJobName d1 p1 s1 ≠ generatedJobName d2 p2 s2 := by
  intro h
  apply hne
  have hdata := congrArg String.data h
  rw [generatedJobName_data, generatedJobName_data] at hdata
  have hrev := congrArg List.reverse hdata
  simp only [List.reverse_append, List.reverse_cons] at hrev
  have hw := congrArg (List.takeWhile fun c => c != '-') hrev
  have e1 : ∀ x ∈ s1.data.reverse, (x != '-') = true := by
    intro x hx
    exact bne_iff_ne.mpr (h1 x (List.mem_reverse.mp hx))
  have e2 : ∀ x ∈ s2.data.reverse, (x != '-') = true := by
    intro x hx
    exact bne_iff_ne.mpr (h2 x (List.mem_reverse.mp hx))
  rw [show s1.data.reverse ++ ['-'] ++ (d1 ++ "-" ++ p1).data.reverse =
      s1.data.reverse ++ ('-' :: (d1 ++ "-" ++ p1).data.reverse) by simp] at hw
  rw [show s2.data.reverse ++ ['-'] ++ (d2 ++ "-" ++ p2).data.reverse =
      s2.data.reverse ++ ('-' :: (d2 ++ "-" ++ p2).data.reverse) by simp] at hw
  rw [takeWhile_append_all _ _ _ e1, takeWhile_append_all _ _ _ e2] at hw
  simp only [List.takeWhile] at hw
  norm_num at hw
  have : s1.data = s2.data := by
    have := congrArg List.reverse hw
    simpa using this
  cases s1
  cases s2
  exact congrArg String.mk this

/-- C8: a generated job name is non-empty; two creations with distinct
(hyphen-free) sequence values get distinct names; the stored name does
not depend on the record's own primary key; and a printer passing the
creation checks has a non-empty name distinct from every existing
printer name. -/
theorem C8_name_invariants :
    (∀ d p s : String, generatedJobName d p s ≠ "") ∧
    (∀ d1 p1 s1 d2 p2 s2 : String,
      (∀ c ∈ s1.toList, c ≠ '-') → (∀ c ∈ s2.toList, c ≠ '-') → s1 ≠ s2 →
      generatedJobName d1 p1 s1 ≠ generatedJobName d2 p2 s2) ∧
    (∀ (id1 id2 : Nat) (d p s : String) (pid uid : Nat) (fmt : DataFormat)
        (data : Option (List Nat)),
      (createJobRecord id1 d p s pid uid fmt data).name =
        (createJobRecord id2 d p s pid uid fmt data).name) ∧
    (∀ (existing : List Printer) (q r : Printer),
      printer_name_check existing q = .ok r →
      r = q ∧ q.name ≠ "" ∧ ∀ x ∈ existing, x.name ≠ q.name) := by
  refine ⟨?_, generatedJobName_inj_seq, fun _ _ _ _ _ _ _ _ _ => rfl, ?_⟩
  · intro d p s h
    have := congrArg String.data h
    rw [generatedJobName_data] at this
    simp at this
  · intro existing q r h
    unfold printer_name_check at h
    split_ifs at h with h1 h2
    cases h
    refine ⟨rfl, ?_, ?_⟩
    · intro hq
      rw [hq] at h1
      simp at h1
    · intro x hx hxq
      exact h2 (List.any_eq_true.mpr ⟨x, hx, by simp [hxq]⟩)

/-- Witness for C8: two concrete creations with sequence values `00001`
and `00002` have distinct non-empty names that are independent of the
assigned ids, and a concrete printer passes the name checks. -/
theorem C8_name_invariants_witness :
    generatedJobName "receipt" "Main Printer" "00001" ≠ "" ∧
    generatedJobName "receipt" "Main Printer" "00001" ≠
      generatedJobName "receipt" "Main Printer" "00002" ∧
    (createJobRecord 1 "receipt" "Main Printer" "00001" 1 1 DataFormat.pdf none).name =
      (createJobRecord 99 "receipt" "Main Printer" "00001" 1 1 DataFormat.pdf none).name ∧
    (samplePrinter.name ≠ "" ∧ ∀ x ∈ [limitedPrinter], x.name ≠ samplePrinter.name) := by
  refine ⟨C8_name_invariants.1 "receipt" "Main Printer" "00001",
    C8_name_invariants.2.1 "receipt" "Main Printer" "00001" "receipt" "Main Printer" "00002"
      (by decide) (by decide) (by decide),
    C8_name_invariants.2.2.1 1 99 "receipt" "Main Printer" "00001" 1 1 DataFormat.pdf none,
    ?_⟩
  have h := C8_name_invariants.2.2.2 [limitedPrinter] samplePrinter samplePrinter rfl
  exact ⟨h.2.1, h.2.2⟩

/-! ## Printer-selection claims -/

/-- Boolean to integer, for the spec's score formula. -/
def b2i (b : Bool) : Int := if b then 1 else 0

/-- Holds when a location was requested and the printer's
location equals it. -/
def locMatches (location_id : Option Nat) (p : Printer) : Bool :=
  match location_id with
  | some l => p.location_id = some l
  | none => false

/-- Holds when a department was requested and the printer's
department equals it. -/
def deptMatches (department : Option String) (p : Printer) : Bool :=
  match department with
  | some d => p.department = some d
  | none => false

/-- The score formula exactly as the spec words it:
`10000×is_default + 1000×(location matches) + 100×(location unassigned)
+ 500×(department matches) + 50×(department unassigned) + priority`. -/
def specScore (location_id : Option Nat) (department : Option String) (p : Printer) : Int :=
  10000 * b2i p.is_default
  + 1000 * b2i (locMatches location_id p)
  + 100 * b2i (p.location_id = none)
  + 500 * b2i (deptMatches department p)
  + 50 * b2i (p.department = none)
  + p.priority

/-- The source's score computation agrees with the spec formula on
every input. -/
theorem printerScore_eq_spec (loc : Option Nat) (dept : Option String) (p : Printer) :
    printerScore loc dept p = specScore loc dept p := by
  unfold printerScore specScore locMatches deptMatches b2i
  rcases loc with _ | l <;> rcases dept with _ | d <;>
    rcases hl : p.location_id with _ | pl <;> rcases hd2 : p.department with _ | pd <;>
      simp only [hl, hd2, Option.some.injEq, reduceCtorEq, decide_False, decide_True,
        if_false, if_true, ite_false, ite_true] <;>
      split_ifs <;> simp_all

/-- The strict-improvement fold of `_select_best_printer` returns a
member of the pool that maximises the score. -/
theorem foldl_best_spec (f : Printer → Int) (l : List Printer) (p : Printer) :
    (l.foldl (fun best q => if f q > f best then q else best) p) ∈ p :: l ∧
    ∀ q ∈ p :: l, f q ≤ f (l.foldl (fun best q => if f q > f best then q else best) p) := by
  induction l generalizing p with
  | nil => simp
  | cons x t ih =>
    have hstep : List.foldl (fun best q => if f q > f best then q else best) p (x :: t)
        = List.foldl (fun best q => if f q > f best then q else best)
            (if f x > f p then x else p) t := rfl
    rw [hstep]
    by_cases h : f x > f p
    · rw [if_pos h]
      obtain ⟨hmem, hbound⟩ := ih x
      refine ⟨List.mem_cons_of_mem p hmem, ?_⟩
      intro q hq
      rcases List.mem_cons.mp hq with rfl | hq'
      · exact le_trans (le_of_lt h) (hbound x (List.mem_cons_self x t))
      · exact hbound q hq'
    · rw [if_neg h]
      obtain ⟨hmem, hbound⟩ := ih p
      constructor
      · rcases List.mem_cons.mp hmem with hfold | hm
        · rw [hfold]
          exact List.mem_cons_self _ _
        · exact List.mem_cons_of_mem _ (List.mem_cons_of_mem _ hm)
      · intro q hq
        rcases List.mem_cons.mp hq with rfl | hq'
        · exact hbound q (List.mem_cons_self q t)
        · rcases List.mem_cons.mp hq' with rfl | hq''
          · exact le_trans (not_lt.mp h) (hbound p (List.mem_cons_self p t))
          · exact hbound q (List.mem_cons_of_mem p hq'')

/-- A default printer scores at least `10000 + priority`. -/
theorem printerScore_default_lower (loc : Option Nat) (dept : Option String) (p : Printer)
    (h : p.is_default = true) :
    10000 + p.priority ≤ printerScore loc dept p := by
  unfold printerScore
  simp only [h, if_true]
  rcases loc with _ | l <;> rcases dept with _ | d <;> dsimp only <;> split_ifs <;> omega

/-- A non-default printer scores at most `1500 + priority`. -/
theorem printerScore_nondefault_upper (loc : Option Nat) (dept : Option String) (p : Printer)
    (h : p.is_default = false) :
    printerScore loc dept p ≤ 1500 + p.priority := by
  unfold printerScore
  simp only [h, Bool.false_eq_true, if_false]
  rcases loc with _ | l <;> rcases dept with _ | d <;> dsimp only <;> split_ifs <;> omega

/-- C5 counterexample: two active receipt printers in the selection
domain, one the default (priority 0), the other non-default with
priority 10001: the scoring (10150 vs 10151) selects the non-default
printer, contradicting "regardless of the non-default printer's
priority". -/
theorem C5_selection_counterexample :
    (⟨11, "Default Receipt", .receipt, none, none, true, 0, true, true, true, false,
        false⟩ : Printer).is_default = true ∧
    (⟨12, "High Priority", .receipt, none, none, false, 10001, true, true, true, false,
        false⟩ : Printer).is_default = false ∧
    get_default_printer
        [⟨11, "Default Receipt", .receipt, none, none, true, 0, true, true, true, false, false⟩,
         ⟨12, "High Priority", .receipt, none, none, false, 10001, true, true, true, false, false⟩]
        (some .receipt) none none =
      some ⟨12, "High Priority", .receipt, none, none, false, 10001, true, true, true, false,
        false⟩ := by
  decide

/-- C5 (amended): the source's per-printer score equals the spec's
formula; `_select_best_printer` returns a candidate of maximal score;
and a default printer beats a non-default one of the same type in the
same selection domain provided the non-default priority advantage is
less than 8500 (with an unbounded priority the non-default printer can
outscore the `10000` default bonus, see the counterexample). -/
theorem C5_selection_amended :
    (∀ (loc : Option Nat) (dept : Option String) (p : Printer),
      printerScore loc dept p = specScore loc dept p) ∧
    (∀ (printers : List Printer) (loc : Option Nat) (dept : Option String) (p : Printer),
      select_best_printer printers loc dept = some p →
      p ∈ printers ∧ ∀ q ∈ printers, printerScore loc dept q ≤ printerScore loc dept p) ∧
    (∀ (ptype : Option PrinterType) (loc : Option Nat) (dept : Option String)
        (pd pn : Printer),
      inSelectionDomain ptype loc dept pd = true →
      inSelectionDomain ptype loc dept pn = true →
      pd.is_default = true → pn.is_default = false →
      pn.priority < pd.priority + 8500 →
      get_default_printer [pd, pn] ptype loc dept = some pd ∧
      get_default_printer [pn, pd] ptype loc dept = some pd) := by
  refine ⟨printerScore_eq_spec, ?_, ?_⟩
  · intro printers loc dept p h
    cases printers with
    | nil => simp [select_best_printer] at h
    | cons x t =>
      unfold select_best_printer at h
      obtain rfl := Option.some.inj h
      exact foldl_best_spec (printerScore loc dept) t x
  · intro ptype loc dept pd pn hd hn hdef hndef hpr
    have hlt : printerScore loc dept pn < printerScore loc dept pd := by
      have h1 := printerScore_nondefault_upper loc dept pn hndef
      have h2 := printerScore_default_lower loc dept pd hdef
      omega
    have hf1 : List.filter (inSelectionDomain ptype loc dept) [pd, pn] = [pd, pn] := by
      simp [List.filter, hd, hn]
    have hf2 : List.filter (inSelectionDomain ptype loc dept) [pn, pd] = [pn, pd] := by
      simp [List.filter, hd, hn]
    constructor
    · unfold get_default_printer
      rw [hf1]
      show some (if printerScore loc dept pn > printerScore loc dept pd then pn else pd) = some pd
      rw [if_neg (not_lt.mpr (le_of_lt hlt))]
    · unfold get_default_printer
      rw [hf2]
      show some (if printerScore loc dept pd > printerScore loc dept pn then pd else pn) = some pd
      rw [if_pos hlt]

/-- Witness for C5: the default receipt printer is selected over a
non-default one of priority 8000 in both list orders, and the selection
over that pool maximises the score. -/
theorem C5_selection_witness :
    get_default_printer
        [⟨11, "Default Receipt", .receipt, none, none, true, 0, true, true, true, false, false⟩,
         ⟨13, "Mid Priority", .receipt, none, none, false, 8000, true, true, true, false, false⟩]
        (some .receipt) none none =
      some ⟨11, "Default Receipt", .receipt, none, none, true, 0, true, true, true, false,
        false⟩ ∧
    get_default_printer
        [⟨13, "Mid Priority", .receipt, none, none, false, 8000, true, true, true, false, false⟩,
         ⟨11, "Default Receipt", .receipt, none, none, true, 0, true, true, true, false, false⟩]
        (some .receipt) none none =
      some ⟨11, "Default Receipt", .receipt, none, none, true, 0, true, true, true, false,
        false⟩ :=
  C5_selection_amended.2.2 (some .receipt) none none
    ⟨11, "Default Receipt", .receipt, none, none, true, 0, true, true, true, false, false⟩
    ⟨13, "Mid Priority", .receipt, none, none, false, 8000, true, true, true, false, false⟩
    (by decide) (by decide) rfl rfl (by decide)

/-! ## Batching claims -/

/-- Folding `mappedStep` over jobs that all reference `pid` leaves an
accumulator already containing `pid` unchanged. -/
theorem foldl_mappedStep_const (pid : Nat) :
    ∀ (jobs : List Job) (acc : List Nat),
      (∀ j ∈ jobs, j.printer_id = some pid) → pid ∈ acc →
      jobs.foldl mappedStep acc = acc := by
  intro jobs
  induction jobs with
  | nil => intro acc _ _; rfl
  | cons j t ih =>
    intro acc h hpid
    rw [List.foldl_cons]
    have hj := h j (List.mem_cons_self j t)
    have hstep : mappedStep acc j = acc := by
      unfold mappedStep
      rw [hj]
      exact if_pos hpid
    rw [hstep]
    exact ih acc (fun x hx => h x (List.mem_cons_of_mem j hx)) hpid

/-- When every job references the same printer, `mapped('printer_id')`
is that single printer. -/
theorem mappedPrinters_const (j0 : Job) (rest : List Job) (pid : Nat)
    (h : ∀ j ∈ j0 :: rest, j.printer_id = some pid) :
    mappedPrinters (j0 :: rest) = [pid] := by
  unfold mappedPrinters
  rw [List.foldl_cons]
  have hj0 := h j0 (List.mem_cons_self _ _)
  have hstep : mappedStep [] j0 = [pid] := by
    unfold mappedStep
    rw [hj0]
    simp
  rw [hstep]
  exact foldl_mappedStep_const pid rest [pid]
    (fun x hx => h x (List.mem_cons_of_mem _ hx)) (by simp)

/-- Folding `mappedStep` never loses accumulated ids. -/
theorem mem_foldl_mappedStep_mono :
    ∀ (jobs : List Job) (acc : List Nat) (x : Nat), x ∈ acc →
      x ∈ jobs.foldl mappedStep acc := by
  intro jobs
  induction jobs with
  | nil => intro acc x hx; exact hx
  | cons j t ih =>
    intro acc x hx
    rw [List.foldl_cons]
    apply ih
    unfold mappedStep
    cases j.printer_id with
    | none => exact hx
    | some q =>
      dsimp only
      by_cases hq : q ∈ acc
      · rw [if_pos hq]; exact hx
      · rw [if_neg hq]; exact List.mem_append_left _ hx

/-- Every referenced printer id appears in the fold result. -/
theorem mem_foldl_mappedStep (pid : Nat) :
    ∀ (jobs : List Job) (acc : List Nat) (j : Job), j ∈ jobs →
      j.printer_id = some pid → pid ∈ jobs.foldl mappedStep acc := by
  intro jobs
  induction jobs with
  | nil => intro acc j hj _; simp at hj
  | cons k t ih =>
    intro acc j hj hp
    rw [List.foldl_cons]
    rcases List.mem_cons.mp hj with rfl | hj'
    · apply mem_foldl_mappedStep_mono
      unfold mappedStep
      rw [hp]
      dsimp only
      by_cases hin : pid ∈ acc
      · rw [if_pos hin]; exact hin
      · rw [if_neg hin]; exact List.mem_append_right _ (by simp)
    · exact ih (mappedStep acc k) j hj' hp

/-- Every referenced printer id appears in `mapped('printer_id')`. -/
theorem mem_mappedPrinters (jobs : List Job) (j : Job) (pid : Nat)
    (hj : j ∈ jobs) (hp : j.printer_id = some pid) :
    pid ∈ mappedPrinters jobs :=
  mem_foldl_mappedStep pid jobs [] j hj hp

/-- A list with two distinct members has length at least 2. -/
theorem one_lt_length_of_two_mem {a b : Nat} {l : List Nat}
    (ha : a ∈ l) (hb : b ∈ l) (hab : a ≠ b) : 1 < l.length := by
  cases l with
  | nil => simp at ha
  | cons x t =>
    cases t with
    | nil =>
      simp at ha hb
      exact absurd (ha.trans hb.symm) hab
    | cons y u =>
      simp only [List.length_cons]
      omega

/-- The value `maxPriority` is an upper bound attained by one of the values. -/
theorem maxPriority_spec (x : Int) (l : List Int) :
    (∀ y ∈ x :: l, y ≤ maxPriority x l) ∧ maxPriority x l ∈ x :: l := by
  unfold maxPriority
  induction l generalizing x with
  | nil => simp
  | cons z t ih =>
    rw [List.foldl_cons]
    obtain ⟨hb, hm⟩ := ih (max x z)
    constructor
    · intro y hy
      rcases List.mem_cons.mp hy with h0 | hy'
      · rw [h0]
        exact le_trans (le_max_left x z) (hb _ (List.mem_cons_self _ _))
      · rcases List.mem_cons.mp hy' with h1 | hy''
        · rw [h1]
          exact le_trans (le_max_right x z) (hb _ (List.mem_cons_self _ _))
        · exact hb y (List.mem_cons_of_mem _ hy'')
    · rcases List.mem_cons.mp hm with h | h
      · rcases max_choice x z with hc | hc <;> rw [h, hc] <;> simp
      · exact List.mem_cons_of_mem _ (List.mem_cons_of_mem _ h)

/-- Running `batch_label_jobs` on two or more label-category jobs that all
reference printer `pid` produces exactly the batch record and the
cancelled constituents the source writes. -/
theorem batch_label_jobs_all_same (printerName : Nat → String) (j1 j2 : Job)
    (rest : List Job) (newId : Nat) (newName : String) (now : Nat) (pid : Nat)
    (hl : ∀ j ∈ j1 :: j2 :: rest, isLabelCategory j = true)
    (hp : ∀ j ∈ j1 :: j2 :: rest, j.printer_id = some pid) :
    batch_label_jobs printerName (j1 :: j2 :: rest) newId newName now =
      .ok (.batched
        { id := newId
          name := newName
          document_type := "label_batch"
          printer_id := some pid
          user_id := j1.user_id
          state := .draft
          data := some (combineData j1.data_format (sortBySubmitted (j1 :: j2 :: rest)))
          data_format := j1.data_format
          template_id := none
          template_data := none
          copies := 1
          priority := maxPriority j1.priority ((j2 :: rest).map Job.priority)
          error_message := none
          retry_count := 0
          submitted_date := none
          completed_date := none
          parent_model := some "qz.print.job"
          parent_id := some j1.id }
        ((j1 :: j2 :: rest).map fun j =>
          { j with
              state := JobState.cancelled
              error_message := some ("Combined into batch job " ++ newName)
              completed_date := some now })) := by
  have hmp : mappedPrinters (j1 :: j2 :: rest) = [pid] := mappedPrinters_const j1 (j2 :: rest) pid hp
  have hfl : (j1 :: j2 :: rest).filter isLabelCategory = j1 :: j2 :: rest :=
    List.filter_eq_self.mpr hl
  simp only [batch_label_jobs, hmp, hfl]
  norm_num

/-- C6: batching two or more label-category jobs on one printer creates
exactly one batch job (`label_batch`, `copies = 1`, priority the
maximum of the constituents, parent linkage to the first constituent)
and cancels every constituent with an error message naming the batch
job; jobs referencing two different printers raise a `ValidationError`
listing the printers; a single job is returned unchanged. -/
theorem C6_batch :
    (∀ (printerName : Nat → String) (j1 j2 : Job) (rest : List Job)
        (newId : Nat) (newName : String) (now : Nat) (pid : Nat),
      (∀ j ∈ j1 :: j2 :: rest, isLabelCategory j = true) →
      (∀ j ∈ j1 :: j2 :: rest, j.printer_id = some pid) →
      ∃ b cancelled,
        batch_label_jobs printerName (j1 :: j2 :: rest) newId newName now =
          .ok (.batched b cancelled) ∧
        b.document_type = "label_batch" ∧ b.copies = 1 ∧
        b.parent_model = some "qz.print.job" ∧ b.parent_id = some j1.id ∧
        b.printer_id = some pid ∧
        (∀ j ∈ j1 :: j2 :: rest, j.priority ≤ b.priority) ∧
        b.priority ∈ (j1 :: j2 :: rest).map Job.priority ∧
        cancelled = (j1 :: j2 :: rest).map (fun j =>
          { j with
              state := JobState.cancelled
              error_message := some ("Combined into batch job " ++ newName)
              completed_date := some now }) ∧
        ∀ jc ∈ cancelled, jc.state = .cancelled ∧
          jc.error_message = some ("Combined into batch job " ++ newName) ∧
          ∃ e, jc.error_message = some e ∧ strContains e newName = true) ∧
    (∀ (printerName : Nat → String) (j1 j2 : Job) (rest : List Job)
        (newId : Nat) (newName : String) (now : Nat) (p1 p2 : Nat),
      j1.printer_id = some p1 → j2.printer_id = some p2 → p1 ≠ p2 →
      batch_label_jobs printerName (j1 :: j2 :: rest) newId newName now =
        .error ("Cannot batch labels for different printers: "
          ++ joinComma ((mappedPrinters (j1 :: j2 :: rest)).map printerName)) ∧
      p1 ∈ mappedPrinters (j1 :: j2 :: rest) ∧
      p2 ∈ mappedPrinters (j1 :: j2 :: rest)) ∧
    (∀ (printerName : Nat → String) (j : Job) (newId : Nat) (newName : String) (now : Nat),
      batch_label_jobs printerName [j] newId newName now = .ok (.single j)) := by
  refine ⟨?_, ?_, fun _ _ _ _ _ => rfl⟩
  · intro printerName j1 j2 rest newId newName now pid hl hp
    refine ⟨_, _, batch_label_jobs_all_same printerName j1 j2 rest newId newName now pid hl hp,
      rfl, rfl, rfl, rfl, rfl, ?_, ?_, rfl, ?_⟩
    · intro j hj
      have := (maxPriority_spec j1.priority ((j2 :: rest).map Job.priority)).1
      rcases List.mem_cons.mp hj with rfl | hj'
      · exact this j.priority (List.mem_cons_self _ _)
      · exact this j.priority
          (List.mem_cons_of_mem _ (List.mem_map_of_mem Job.priority hj'))
    · have := (maxPriority_spec j1.priority ((j2 :: rest).map Job.priority)).2
      simpa using this
    · intro jc hjc
      obtain ⟨j, _, rfl⟩ := List.mem_map.mp hjc
      refine ⟨rfl, rfl, "Combined into batch job " ++ newName, rfl, ?_⟩
      apply strContains_append_right
      unfold strContains
      exact containsSub_self _
  · intro printerName j1 j2 rest newId newName now p1 p2 h1 h2 hne
    have hm1 : p1 ∈ mappedPrinters (j1 :: j2 :: rest) :=
      mem_mappedPrinters _ j1 p1 (List.mem_cons_self _ _) h1
    have hm2 : p2 ∈ mappedPrinters (j1 :: j2 :: rest) :=
      mem_mappedPrinters _ j2 p2 (List.mem_cons_of_mem _ (List.mem_cons_self _ _)) h2
    have hlen : 1 < (mappedPrinters (j1 :: j2 :: rest)).length :=
      one_lt_length_of_two_mem hm1 hm2 hne
    refine ⟨?_, hm1, hm2⟩
    simp only [batch_label_jobs, if_pos hlen]

/-- Witness for C6: three concrete label jobs on printer 5 batch into
one cancelled-constituent batch job; a mixed-printer pair errors; a
single job passes through. -/
theorem C6_batch_witness :
    (∃ b cancelled,
      batch_label_jobs (fun _ => "P") [
        { sampleJob with id := 21, document_type := "label", printer_id := some 5 },
        { sampleJob with id := 22, document_type := "barcode", printer_id := some 5 },
        { sampleJob with id := 23, document_type := "label", printer_id := some 5 }]
        30 "label_batch-P-00030" 9 = .ok (.batched b cancelled) ∧
      b.document_type = "label_batch" ∧ b.copies = 1 ∧
      b.parent_model = some "qz.print.job" ∧ b.parent_id = some 21 ∧
      b.printer_id = some 5 ∧
      (∀ j ∈ [
        { sampleJob with id := 21, document_type := "label", printer_id := some 5 },
        { sampleJob with id := 22, document_type := "barcode", printer_id := some 5 },
        { sampleJob with id := 23, document_type := "label", printer_id := some 5 }],
        j.priority ≤ b.priority) ∧
      b.priority ∈ [
        { sampleJob with id := 21, document_type := "label", printer_id := some 5 },
        { sampleJob with id := 22, document_type := "barcode", printer_id := some 5 },
        { sampleJob with id := 23, document_type := "label", printer_id := some 5 }].map
          Job.priority ∧
      cancelled = [
        { sampleJob with id := 21, document_type := "label", printer_id := some 5 },
        { sampleJob with id := 22, document_type := "barcode", printer_id := some 5 },
        { sampleJob with id := 23, document_type := "label", printer_id := some 5 }].map
          (fun j => { j with
            state := JobState.cancelled
            error_message := some ("Combined into batch job " ++ "label_batch-P-00030")
            completed_date := some 9 }) ∧
      ∀ jc ∈ cancelled, jc.state = .cancelled ∧
        jc.error_message = some ("Combined into batch job " ++ "label_batch-P-00030") ∧
        ∃ e, jc.error_message = some e ∧ strContains e "label_batch-P-00030" = true) ∧
    batch_label_jobs (fun n => if n = 5 then "P" else "Q") [
        { sampleJob with id := 24, document_type := "label", printer_id := some 5 },
        { sampleJob with id := 25, document_type := "label", printer_id := some 6 }]
      31 "x" 9 =
      .error ("Cannot batch labels for different printers: "
        ++ joinComma ((mappedPrinters [
          { sampleJob with id := 24, document_type := "label", printer_id := some 5 },
          { sampleJob with id := 25, document_type := "label", printer_id := some 6 }]).map
            (fun n => if n = 5 then "P" else "Q"))) ∧
    batch_label_jobs (fun _ => "P")
        [{ sampleJob with id := 26, document_type := "label", printer_id := some 5 }]
        32 "y" 9 =
      .ok (.single { sampleJob with id := 26, document_type := "label", printer_id := some 5 }) :=
  ⟨C6_batch.1 (fun _ => "P")
      { sampleJob with id := 21, document_type := "label", printer_id := some 5 }
      { sampleJob with id := 22, document_type := "barcode", printer_id := some 5 }
      [{ sampleJob with id := 23, document_type := "label", printer_id := some 5 }]
      30 "label_batch-P-00030" 9 5 (by decide) (by decide),
   (C6_batch.2.1 (fun n => if n = 5 then "P" else "Q")
      { sampleJob with id := 24, document_type := "label", printer_id := some 5 }
      { sampleJob with id := 25, document_type := "label", printer_id := some 6 }
      [] 31 "x" 9 5 6 rfl rfl (by decide)).1,
   C6_batch.2.2 (fun _ => "P")
      { sampleJob with id := 26, document_type := "label", printer_id := some 5 } 32 "y" 9⟩

end QZ
